import Mathlib

/-!
Verification of the vdsm connection-admission layer specification against the
repository sources. The peer-identity comparator, TLS context and event loop
are exercised by `src/tests/ssl_test.py`; their implementation module is not
part of the source tree, so those components are modelled from the
specification text, kept consistent with the behaviour the in-tree test suite
pins down. The DHCP-response handler (`lib/vdsm/network/dhclient_monitor.py`)
and the gluster storage domain (`vdsm/storage/glusterSD.py`) are embedded
directly from their sources.
-/

namespace Vdsm

/-! ## Peer-identity comparator (modelled from the spec, §4.6) -/

/-- Modelled from the spec: result triple of `socket.gethostbyaddr`
(missing module `vdsm/sslutils.py`): primary hostname, alias list and
address list, as faked by `fake_gethostbyaddr` in `ssl_test.py`. -/
structure GHBA where
  hostname : String
  aliases : List String
  addresses : List String
deriving DecidableEq

/-- Modelled from the spec: a reverse-lookup oracle standing for
`socket.gethostbyaddr`; `none` models a lookup failure (`socket.herror`,
no PTR record or resolver error). -/
def Lookup : Type := String → Option GHBA

/-- The hostnames carried by a reverse-lookup result: the primary
hostname followed by the aliases; a failed lookup yields none. -/
def hostnamesOf : Option GHBA → List String
  | none => []
  | some g => g.hostname :: g.aliases

/-- The characters of the IPv4-mapped IPv6 marker `::ffff:`. -/
def mappedMarker : List Char := [':', ':', 'f', 'f', 'f', 'f', ':']

/-- Split a character list at every dot, keeping empty components. -/
def splitDots : List Char → List (List Char)
  | [] => [[]]
  | c :: rest =>
    if c = '.' then [] :: splitDots rest
    else
      match splitDots rest with
      | [] => [[c]]
      | p :: ps => (c :: p) :: ps

/-- Numeric value of a decimal digit string. -/
def octetVal (l : List Char) : Nat :=
  l.foldl (fun a c => a * 10 + (c.toNat - '0'.toNat)) 0

/-- A valid dotted-quad component: one to three decimal digits, value at
most 255. -/
def validOctet (l : List Char) : Bool :=
  !l.isEmpty && decide (l.length ≤ 3) && l.all Char.isDigit &&
    decide (octetVal l ≤ 255)

/-- IPv4 dotted-quad literal recognizer on character lists. -/
def isIPv4Chars (l : List Char) : Bool :=
  let parts := splitDots l
  parts.length == 4 && parts.all validOctet

/-- IPv4 dotted-quad literal recognizer. -/
def isIPv4 (s : String) : Bool := isIPv4Chars s.data

/-- An IP literal: an IPv4 dotted quad or (any) colon-bearing IPv6 form.
Anything else is treated as a hostname. -/
def isIpLiteral (s : String) : Bool := isIPv4 s || s.data.contains ':'

/-- Modelled from the spec: normalization of an IPv4-mapped IPv6 literal
`::ffff:a.b.c.d` to the bare IPv4 literal `a.b.c.d` (spec §4.6 rule 1);
any other value is returned unchanged. -/
def normalize_ip_address (s : String) : String :=
  if s.data.take 7 == mappedMarker && isIPv4Chars (s.data.drop 7) then
    String.mk (s.data.drop 7)
  else s

/-- The loopback addresses trusted by the comparator. -/
def LOCAL_ADDRESSES : List String := ["127.0.0.1", "::1", "::ffff:127.0.0.1"]

/-- Loopback recognizer. -/
def isLoopback (s : String) : Bool := LOCAL_ADDRESSES.contains s

/-- Comparator core on already-normalized values: loopback trust for the
source address, textual equality, and otherwise a reverse lookup of the
IP-literal side whose hostnames must contain the other value; every
other case fails closed.  The loopback short-circuit applies to the
first argument (the observed source address): the in-tree test
`test_failed_mapped_address` requires `compare_names('10.0.0.1',
'::ffff:127.0.0.1')` to fail, so trust cannot extend to the second
argument. -/
def compareCore (lookup : Lookup) (na nb : String) : Bool :=
  if isLoopback na then true
  else if na == nb then true
  else if isIpLiteral na && !isIpLiteral nb then
    (hostnamesOf (lookup na)).contains nb
  else if isIpLiteral nb && !isIpLiteral na then
    (hostnamesOf (lookup nb)).contains na
  else false

/-- Modelled from the spec: `SSLHandshakeDispatcher.compare_names` of the
missing module `vdsm/sslutils.py`, parametrized by the reverse-lookup
oracle; both inputs are normalized (spec §4.6 rule 1) and then compared
by `compareCore` (rules 2-6). -/
def compare_names (lookup : Lookup) (a b : String) : Bool :=
  compareCore lookup (normalize_ip_address a) (normalize_ip_address b)

/-- The reverse-lookup table of `fake_gethostbyaddr`: every address in
`ipaddrlist` resolves to `(hostname, [], ipaddrlist)`, everything else
fails. -/
def fakeGethostbyaddr (hostname : String) (ipaddrlist : List String) :
    Lookup :=
  fun addr =>
    if ipaddrlist.contains addr then some ⟨hostname, [], ipaddrlist⟩
    else none

/-- Lookup of `test_same_string` / `test_failed_mapped_address`:
`('example.com', ['10.0.0.1'])`. -/
def exampleLookup : Lookup := fakeGethostbyaddr "example.com" ["10.0.0.1"]

/-- Lookup of `test_multiple`: `('example.com', ['10.0.0.1', '10.0.0.2'])`. -/
def multiLookup : Lookup :=
  fakeGethostbyaddr "example.com" ["10.0.0.1", "10.0.0.2"]

/-- Lookup of `test_imposter`: `('evil.imposter.com', ['10.0.0.1'])`. -/
def imposterLookup : Lookup := fakeGethostbyaddr "evil.imposter.com" ["10.0.0.1"]

/-- A lookup with no records at all: every reverse lookup fails. -/
def noRecords : Lookup := fun _ => none

/-! ## TLS context negotiation (modelled from the spec, §4.4/§6) -/

/-- Modelled from the spec: the protocol versions negotiable by the TLS
context of the missing module `vdsm/sslutils.py` (`SSLContext`). -/
inductive ProtoVersion
  | sslv2
  | sslv3
  | tlsv1_0
  | tlsv1_1
  | tlsv1_2
deriving DecidableEq

/-- Precedence and bit position of a protocol version (newer is higher). -/
def versionBit : ProtoVersion → Nat
  | .sslv2 => 0
  | .sslv3 => 1
  | .tlsv1_0 => 2
  | .tlsv1_1 => 3
  | .tlsv1_2 => 4

/-- Modelled from the spec: the immutable TLS context configuration of the
missing `SSLContext` — the accepted protocol-version set and the
exclusion bitmask of explicitly refused legacy sub-versions. -/
structure SSLContextModel where
  accepted : List ProtoVersion
  excludes : Nat

/-- A version refused by the context's exclusion bitmask
(the `ssl.OP_NO_*` flags of the `excludes` argument). -/
def isExcluded (ctx : SSLContextModel) (v : ProtoVersion) : Bool :=
  ctx.excludes.testBit (versionBit v)

/-- The bitmask flag refusing one version (the model's `ssl.OP_NO_*`). -/
def opNo (v : ProtoVersion) : Nat := 2 ^ versionBit v

/-- The versions a handshake may use: offered by the client, in the
context's accepted set, and not excluded by the bitmask. -/
def candidates (ctx : SSLContextModel) (offers : List ProtoVersion) :
    List ProtoVersion :=
  offers.filter (fun v => ctx.accepted.contains v && !isExcluded ctx v)

/-- Modelled from the spec: handshake version negotiation — the highest
candidate version, or `none` (handshake failure, never a downgrade to an
excluded version). -/
def negotiate (ctx : SSLContextModel) (offers : List ProtoVersion) :
    Option ProtoVersion :=
  (candidates ctx offers).argmax versionBit

/-- The acceptor configuration of the `listener` fixture: TLS 1.0-1.2
accepted, nothing excluded by default. -/
def defaultAcceptor : SSLContextModel :=
  ⟨[.tlsv1_0, .tlsv1_1, .tlsv1_2], 0⟩

/-- The acceptor of `test_client_tlsv12`: excludes TLSv1.1 and TLSv1.2. -/
def acceptorNoTls11NoTls12 : SSLContextModel :=
  ⟨[.tlsv1_0, .tlsv1_1, .tlsv1_2], opNo .tlsv1_1 ||| opNo .tlsv1_2⟩

/-! ## Event loop / acceptor lifecycle (modelled from the spec, §4.1/§5) -/

/-- Modelled from the spec: the observable state of the missing Event
Loop / Acceptor (`yajsonrpc.betterAsyncore.Reactor`,
`vdsm.protocoldetector.MultiProtocolAcceptor`): the registered handler
keys and whether a stop has been requested. -/
structure EventLoopModel where
  handlers : List Nat
  stop_requested : Bool
deriving DecidableEq

/-- Modelled from the spec: `stop()` requests termination; it is
thread-safe and idempotent and never raises (always `ok`). -/
def stop (l : EventLoopModel) : Except String EventLoopModel :=
  Except.ok { l with stop_requested := true }

/-- Modelled from the spec: the loop thread is joinable once `run()`
returns, which happens exactly when a stop request has been observed. -/
def joinable (l : EventLoopModel) : Bool := l.stop_requested

/-- Modelled from the spec: number of poll iterations `run()` still
performs before returning, bounded by `fuel`; a stop request is observed
within one bounded poll interval, so a stopped loop performs none. -/
def runIterations : Nat → EventLoopModel → Nat
  | 0, _ => 0
  | n + 1, l => if l.stop_requested then 0 else 1 + runIterations n l

/-! ## DHCP response handler
(embedded from `src/lib/vdsm/network/dhclient_monitor.py`) -/

def ACTION_KEY : String := "action"

def IPADDR_KEY : String := "ip"

def IPMASK_KEY : String := "mask"

def IPROUTE_KEY : String := "route"

def IFACE_KEY : String := "iface"

/-- The monitored directory as a flat file system: path/contents pairs. -/
abbrev FS := List (String × String)

/-- Whether a path exists in the file system. -/
def fileExists (fs : FS) (p : String) : Bool := fs.any (fun e => e.1 == p)

/-- `open(fpath).read()`, as far as the handler consumes it. -/
def lookupFile (fs : FS) (p : String) : Option String :=
  (fs.find? (fun e => e.1 == p)).map (fun e => e.2)

/-- `os.remove`: drops the file, or raises (`FileNotFoundError`) when the
path is absent. -/
def osRemove (fs : FS) (p : String) : Except String FS :=
  if fileExists fs p then Except.ok (fs.filter (fun e => !(e.1 == p)))
  else Except.error "FileNotFoundError"

/-- `line.split('=', 1)` followed by the pair destructuring: characters
before the first `=` and after it, or `none` (a `ValueError`) when no
`=` occurs in the token. -/
def splitEqChars : List Char → Option (List Char × List Char)
  | [] => none
  | c :: rest =>
    if c = '=' then some ([], rest)
    else (splitEqChars rest).map (fun kv => (c :: kv.1, kv.2))

/-- The parsing loop of `_dhcp_response_data`: each token is split at `=`
into a key/value assignment; a token without `=` raises `ValueError`,
which the surrounding bare `except:` turns into keeping only the data
read so far. -/
def parseResponse : List String → List (String × String)
  | [] => []
  | tok :: toks =>
    match splitEqChars tok.data with
    | none => []
    | some kv => (String.mk kv.1, String.mk kv.2) :: parseResponse toks

/-- Python `dict` lookup after sequential assignments: the last binding
of the key wins. -/
def dictGet (d : List (String × String)) (k : String) : Option String :=
  (d.reverse.find? (fun e => e.1 == k)).map (fun e => e.2)

/-- Python truthiness of an optional string (`None` and `''` are falsy). -/
def truthyStr : Option String → Bool
  | none => false
  | some s => !(s == "")

/-- The handler's collaborators living outside the embedded module:
`shlex.split`, `DynamicSourceRoute.isVDSMInterface`, the source-route
configure/remove operations and the interface-tracking removal; the
route and tracking operations may raise. -/
structure DhclientEnv where
  shlexSplit : String → List String
  isVDSMInterface : String → Bool
  configureSourceRoute : String → String → String → String → Except String Unit
  removeSourceRoute : String → Except String Unit
  removeInterfaceTracking : String → Except String Unit

/-- `_dhcp_response_data`: reads and parses the response file; every
error is caught (bare `except:`) so at most partial data is returned,
never an exception. -/
def _dhcp_response_data (env : DhclientEnv) (fs : FS) (fpath : String) :
    List (String × String) :=
  match lookupFile fs fpath with
  | none => []
  | some contents => parseResponse (env.shlexSplit contents)

/-- `_dhcp_configure_action`: configures the dynamic source route when
ip, mask are truthy and the gateway is neither `None` nor `'0.0.0.0'`;
otherwise only logs a warning. -/
def _dhcp_configure_action (env : DhclientEnv)
    (dhcp_response : List (String × String)) (device : String) :
    Except String Unit :=
  let ip := dictGet dhcp_response IPADDR_KEY
  let mask := dictGet dhcp_response IPMASK_KEY
  let gateway := dictGet dhcp_response IPROUTE_KEY
  if truthyStr ip && truthyStr mask &&
      !(gateway == none) && !(gateway == some "0.0.0.0") then
    env.configureSourceRoute device (ip.getD "") (mask.getD "") (gateway.getD "")
  else Except.ok ()

/-- `_dhcp_remove_action`. -/
def _dhcp_remove_action (env : DhclientEnv) (device : String) :
    Except String Unit :=
  env.removeSourceRoute device

/-- `_process_dhcp_response_actions`. -/
def _process_dhcp_response_actions (env : DhclientEnv)
    (action : Option String) (device : String)
    (dhcp_response : List (String × String)) : Except String Unit :=
  if action == some "configure" then
    _dhcp_configure_action env dhcp_response device
  else _dhcp_remove_action env device

/-- `_dhcp_response_handler`: the body runs inside the `_cleaning_file`
context manager, whose `finally` block removes the response file; the
result is the outcome (normal or exceptional) paired with the resulting
file system. When the final `os.remove` itself raises, its exception
replaces the body's outcome, as in Python's `finally`. -/
def _dhcp_response_handler (env : DhclientEnv) (fs : FS)
    (data_filepath : String) : Except String Unit × FS :=
  let body : Except String Unit :=
    let dhcp_response := _dhcp_response_data env fs data_filepath
    let action := dictGet dhcp_response ACTION_KEY
    let device := dictGet dhcp_response IFACE_KEY
    match device with
    | none => Except.ok ()
    | some dev =>
      match (if env.isVDSMInterface dev then
               _process_dhcp_response_actions env action dev dhcp_response
             else Except.ok ()) with
      | Except.error e => Except.error e
      | Except.ok _ => env.removeInterfaceTracking dev
  match osRemove fs data_filepath with
  | Except.error e => (Except.error e, fs)
  | Except.ok fs2 => (body, fs2)

/-! ## Gluster storage domain
(embedded from `src/vdsm/storage/glusterSD.py`) -/

/-- `se.StorageDomainDoesNotExist(sdUUID)`. -/
structure StorageDomainDoesNotExist where
  sdUUID : String
deriving DecidableEq

/-- `os.path.join` for the two-argument uses of `glusterSD.py` (the
second component is a relative path). -/
def pathJoin (a b : String) : String :=
  if a == "" then b
  else if a.endsWith "/" then a ++ b
  else a ++ "/" ++ b

/-- The loop condition of `findDomainPath`: the scanned UUID equals the
requested one and the domain path's parent directory is mounted. -/
def domainMatches (isMounted : String → Bool) (sdUUID : String)
    (e : String × String) : Bool :=
  e.1 == sdUUID && isMounted (pathJoin e.2 "..")

/-- `GlusterStorageDomain.findDomainPath`: iterates the scanned
`(tmpSdUUID, domainPath)` pairs and returns the first matching domain
path; when no entry matches, the loop falls through to
`raise se.StorageDomainDoesNotExist(sdUUID)`. The external collaborators
`fileSD.scanDomains` and `mount.isMounted` are parameters. -/
def findDomainPath (scanDomains : List (String × String))
    (isMounted : String → Bool) (sdUUID : String) :
    Except StorageDomainDoesNotExist String :=
  match scanDomains.find? (domainMatches isMounted sdUUID) with
  | some e => Except.ok e.2
  | none => Except.error ⟨sdUUID⟩

example : compare_names exampleLookup "10.0.0.1" "example.com" = true := by decide
example : compare_names exampleLookup "10.0.0.1" "::ffff:127.0.0.1" = false := by decide
example : compare_names noRecords "::ffff:127.0.0.1" "127.0.0.1" = true := by decide
example : compare_names noRecords "127.0.0.1" "::ffff:127.0.0.1" = true := by decide
example : compare_names multiLookup "10.0.0.2" "example.com" = true := by decide
example : compare_names imposterLookup "10.0.0.1" "example.com" = false := by decide
example : compare_names noRecords "127.0.0.1" "example.com" = true := by decide
example : compare_names noRecords "::1" "example.com" = true := by decide
example : compare_names noRecords "::ffff:127.0.0.1" "example.com" = true := by decide

/-! ### Comparator lemmas -/

/-- If normalization leaves a value that is not an IP literal, it left the
value unchanged (only IPv4-mapped IP literals are rewritten). -/
theorem normalize_eq_self_of_not_literal (s : String)
    (h : isIpLiteral (normalize_ip_address s) = false) :
    normalize_ip_address s = s := by
  by_cases hc : (s.data.take 7 == mappedMarker && isIPv4Chars (s.data.drop 7)) = true
  · exfalso
    rw [normalize_ip_address, if_pos hc] at h
    have h4 : isIPv4Chars (s.data.drop 7) = true := by
      simp only [Bool.and_eq_true] at hc
      exact hc.2
    have hd : (String.mk (s.data.drop 7)).data = s.data.drop 7 := rfl
    rw [isIpLiteral, isIPv4, hd, h4] at h
    simp at h
  · rw [normalize_ip_address, if_neg hc]

/-- Every loopback address is an IP literal. -/
theorem isIpLiteral_of_isLoopback (s : String) (h : isLoopback s = true) :
    isIpLiteral s = true := by
  rw [isLoopback, LOCAL_ADDRESSES] at h
  simp at h
  rcases h with h | h | h <;> rw [h] <;> decide

/-! ### Claim theorems: peer-identity comparator -/

/-- C1 (counterexample): the comparator is not symmetric: with no reverse
records at all, `compare_names("::ffff:127.0.0.1", "10.0.0.1")` succeeds by
loopback trust of the first argument while the flipped call fails. -/
theorem compare_names_not_symmetric :
    compare_names noRecords "::ffff:127.0.0.1" "10.0.0.1" = true ∧
    compare_names noRecords "10.0.0.1" "::ffff:127.0.0.1" = false := by
  decide

/-- C1 (amended): the comparator is symmetric on every pair whose two
normalized values agree on being loopback or not; only the loopback
short-circuit of the first argument breaks symmetry. -/
theorem compare_names_symm_of_loopback_agree (lookup : Lookup) (a b : String)
    (h : isLoopback (normalize_ip_address a)
       = isLoopback (normalize_ip_address b)) :
    compare_names lookup a b = compare_names lookup b a := by
  unfold compare_names compareCore
  by_cases heq : normalize_ip_address a = normalize_ip_address b
  · rw [heq]
  · rw [h]
    cases hlb : isLoopback (normalize_ip_address b) <;>
      cases hia : isIpLiteral (normalize_ip_address a) <;>
        cases hib : isIpLiteral (normalize_ip_address b) <;>
          simp [heq, Ne.symm heq, hia, hib]

/-- C1 witness: symmetry at a concrete non-loopback pair. -/
theorem compare_names_symm_of_loopback_agree_witness :
    isLoopback (normalize_ip_address "10.0.0.1")
      = isLoopback (normalize_ip_address "example.com") ∧
    compare_names exampleLookup "10.0.0.1" "example.com"
      = compare_names exampleLookup "example.com" "10.0.0.1" :=
  ⟨by decide,
   compare_names_symm_of_loopback_agree exampleLookup "10.0.0.1" "example.com"
     (by decide)⟩

/-- C2 (counterexample): a loopback value in the second position does not
make the comparison succeed: `"::ffff:127.0.0.1"` normalizes to loopback,
yet `compare_names("10.0.0.1", "::ffff:127.0.0.1")` fails under the lookup
mapping `10.0.0.1` to `example.com`. -/
theorem loopback_second_argument_not_trusted :
    isLoopback (normalize_ip_address "::ffff:127.0.0.1") = true ∧
    compare_names exampleLookup "10.0.0.1" "::ffff:127.0.0.1" = false := by
  decide

/-- C2 (amended): if the first input (the observed source address), after
IPv4-mapped-IPv6 normalization, is a loopback address, then the
comparison succeeds regardless of the second input and of the lookup. -/
theorem compare_names_loopback_first (lookup : Lookup) (a b : String)
    (h : isLoopback (normalize_ip_address a) = true) :
    compare_names lookup a b = true := by
  unfold compare_names compareCore
  rw [h]
  simp

/-- C2 witness: loopback trust of the first argument at `"::1"`. -/
theorem compare_names_loopback_first_witness :
    isLoopback (normalize_ip_address "::1") = true ∧
    compare_names noRecords "::1" "example.com" = true :=
  ⟨by decide,
   compare_names_loopback_first noRecords "::1" "example.com" (by decide)⟩

/-- C3: `compare_names("10.0.0.1", "::ffff:127.0.0.1")` is false whenever
the reverse lookup maps `10.0.0.1` only to `example.com` (both values are
IP literals after normalization, so no lookup can connect them). -/
theorem failed_mapped_address (lookup : Lookup)
    (h : lookup "10.0.0.1" = some ⟨"example.com", [], ["10.0.0.1"]⟩) :
    compare_names lookup "10.0.0.1" "::ffff:127.0.0.1" = false := rfl

/-- C3 witness: the concrete lookup of `test_failed_mapped_address`. -/
theorem failed_mapped_address_witness :
    exampleLookup "10.0.0.1" = some ⟨"example.com", [], ["10.0.0.1"]⟩ ∧
    compare_names exampleLookup "10.0.0.1" "::ffff:127.0.0.1" = false :=
  ⟨by decide, failed_mapped_address exampleLookup (by decide)⟩

/-- C4 (counterexample): for an IP-literal/hostname pair the comparison is
not equivalent to a reverse-lookup match: with no reverse records at all,
`compare_names("127.0.0.1", "example.com")` succeeds although the lookup
returns no hostname. -/
theorem ip_hostname_not_lookup_only :
    isIpLiteral "127.0.0.1" = true ∧
    isIpLiteral "example.com" = false ∧
    hostnamesOf (noRecords (normalize_ip_address "127.0.0.1")) = [] ∧
    compare_names noRecords "127.0.0.1" "example.com" = true := by
  decide

/-- C4 (amended): when one normalized input is a non-loopback IP literal
and the other is a hostname, the comparison succeeds exactly when the
hostname appears among the hostnames returned by the reverse lookup of
the IP literal, and the result is the same in either argument order. -/
theorem compare_names_ip_hostname (lookup : Lookup) (a b : String)
    (ha : isIpLiteral (normalize_ip_address a) = true)
    (hb : isIpLiteral (normalize_ip_address b) = false)
    (hl : isLoopback (normalize_ip_address a) = false) :
    (compare_names lookup a b = true ↔
      b ∈ hostnamesOf (lookup (normalize_ip_address a))) ∧
    compare_names lookup b a = compare_names lookup a b := by
  have hbb : normalize_ip_address b = b := normalize_eq_self_of_not_literal b hb
  have hlb : isLoopback (normalize_ip_address b) = false := by
    cases hq : isLoopback (normalize_ip_address b)
    · rfl
    · have hx := isIpLiteral_of_isLoopback _ hq
      rw [hb] at hx
      exact absurd hx (by decide)
  have hne : normalize_ip_address a ≠ normalize_ip_address b := by
    intro hq
    rw [hq, hb] at ha
    exact absurd ha (by decide)
  have hb2 : isIpLiteral b = false := hbb ▸ hb
  have hlb2 : isLoopback b = false := hbb ▸ hlb
  constructor
  · unfold compare_names compareCore
    rw [hbb] at hne ⊢
    simp [hl, hne, ha, hb2]
  · unfold compare_names compareCore
    rw [hbb] at hne ⊢
    simp [hl, hlb2, hne, Ne.symm hne, ha, hb2]

/-- C4 witness: the multi-address lookup of `test_multiple`. -/
theorem compare_names_ip_hostname_witness :
    isIpLiteral (normalize_ip_address "10.0.0.2") = true ∧
    isIpLiteral (normalize_ip_address "example.com") = false ∧
    isLoopback (normalize_ip_address "10.0.0.2") = false ∧
    ((compare_names multiLookup "10.0.0.2" "example.com" = true ↔
       "example.com" ∈ hostnamesOf (multiLookup (normalize_ip_address "10.0.0.2"))) ∧
     compare_names multiLookup "example.com" "10.0.0.2"
       = compare_names multiLookup "10.0.0.2" "example.com") :=
  ⟨by decide, by decide, by decide,
   compare_names_ip_hostname multiLookup "10.0.0.2" "example.com"
     (by decide) (by decide) (by decide)⟩

/-- C5: an IPv4-mapped IPv6 literal is equivalent to the bare IPv4
literal: both argument orders of `("::ffff:127.0.0.1", "127.0.0.1")`
succeed, and `"::ffff:127.0.0.1"` is interchangeable with `"127.0.0.1"`
in either position against any value and any lookup. -/
theorem mapped_address_equivalence (lookup : Lookup) (x : String) :
    compare_names lookup "::ffff:127.0.0.1" "127.0.0.1" = true ∧
    compare_names lookup "127.0.0.1" "::ffff:127.0.0.1" = true ∧
    compare_names lookup x "::ffff:127.0.0.1"
      = compare_names lookup x "127.0.0.1" ∧
    compare_names lookup "::ffff:127.0.0.1" x
      = compare_names lookup "127.0.0.1" x := by
  have hn : normalize_ip_address "::ffff:127.0.0.1"
      = normalize_ip_address "127.0.0.1" := by decide
  refine ⟨rfl, rfl, ?_, ?_⟩ <;> unfold compare_names <;> rw [hn]

/-- C6: whenever the comparator would consult the reverse lookup (neither
short-circuit applies) and every lookup fails (`none`, modelling a missing
PTR record or resolver error), the comparison returns false — and being a
total `Bool`-valued function, it never raises. -/
theorem lookup_failure_fails (lookup : Lookup) (a b : String)
    (hl : isLoopback (normalize_ip_address a) = false)
    (hne : normalize_ip_address a ≠ normalize_ip_address b)
    (h1 : lookup (normalize_ip_address a) = none)
    (h2 : lookup (normalize_ip_address b) = none) :
    compare_names lookup a b = false := by
  unfold compare_names compareCore
  rw [h1, h2]
  simp [hl, hne, hostnamesOf]

/-! ### Claim theorems: TLS negotiation and loop lifecycle -/

/-- C7: negotiation never selects an excluded version — any negotiated
version is offered, accepted and not in the exclusion bitmask; in
particular the acceptor excluding TLSv1.1/TLSv1.2 rejects a client
offering only TLSv1.2, and SSLv2/SSLv3-only clients fail against the
default acceptor. -/
theorem negotiate_honors_excludes (ctx : SSLContextModel)
    (offers : List ProtoVersion) (v : ProtoVersion)
    (h : negotiate ctx offers = some v) :
    (isExcluded ctx v = false ∧ ctx.accepted.contains v = true ∧
      v ∈ offers) ∧
    negotiate acceptorNoTls11NoTls12 [.tlsv1_2] = none ∧
    negotiate defaultAcceptor [.sslv2] = none ∧
    negotiate defaultAcceptor [.sslv3] = none ∧
    negotiate defaultAcceptor [.sslv2, .sslv3] = none := by
  refine ⟨?_, by decide, by decide, by decide, by decide⟩
  have hmem : v ∈ candidates ctx offers := List.argmax_mem h
  have := List.mem_filter.mp hmem
  rcases this with ⟨hoff, hp⟩
  simp only [Bool.and_eq_true, Bool.not_eq_true'] at hp
  exact ⟨hp.2, hp.1, hoff⟩

/-- C7 witness: the default acceptor negotiates TLSv1.2 with a modern
client, and that version is not excluded. -/
theorem negotiate_honors_excludes_witness :
    negotiate defaultAcceptor [.tlsv1_0, .tlsv1_1, .tlsv1_2]
      = some .tlsv1_2 ∧
    ((isExcluded defaultAcceptor .tlsv1_2 = false ∧
       defaultAcceptor.accepted.contains .tlsv1_2 = true ∧
       ProtoVersion.tlsv1_2 ∈ [ProtoVersion.tlsv1_0, .tlsv1_1, .tlsv1_2]) ∧
     negotiate acceptorNoTls11NoTls12 [.tlsv1_2] = none ∧
     negotiate defaultAcceptor [.sslv2] = none ∧
     negotiate defaultAcceptor [.sslv3] = none ∧
     negotiate defaultAcceptor [.sslv2, .sslv3] = none) :=
  ⟨by decide,
   negotiate_honors_excludes defaultAcceptor [.tlsv1_0, .tlsv1_1, .tlsv1_2]
     .tlsv1_2 (by decide)⟩

/-- C8: `stop()` is idempotent and errorless — the first call succeeds
and yields a state on which a second call succeeds with the same state,
the loop thread is joinable after the first call alone, and a stopped
loop performs no further poll iterations. -/
theorem stop_idempotent (l : EventLoopModel) :
    ∃ l2, stop l = Except.ok l2 ∧ stop l2 = Except.ok l2 ∧
      joinable l2 = true ∧ ∀ fuel, runIterations fuel l2 = 0 := by
  refine ⟨{ l with stop_requested := true }, rfl, rfl, rfl, ?_⟩
  intro fuel
  cases fuel with
  | zero => rfl
  | succ n => simp [runIterations]

/-! ### Claim theorems: DHCP response handler and gluster domain -/

/-- C9: for every environment, file system and path, after
`_dhcp_response_handler` runs, the response file at that path is gone —
whether the body completed normally or raised, because the removal runs
in the `finally` block of `_cleaning_file`. -/
theorem dhcp_response_file_removed (env : DhclientEnv) (fs : FS)
    (p : String) :
    fileExists (_dhcp_response_handler env fs p).2 p = false := by
  by_cases h : fileExists fs p = true
  · have hrem : osRemove fs p
        = Except.ok (fs.filter (fun e => !(e.1 == p))) := by
      rw [osRemove, if_pos h]
    unfold _dhcp_response_handler
    rw [hrem]
    simp [fileExists]
  · have hrem : osRemove fs p = Except.error "FileNotFoundError" := by
      rw [osRemove, if_neg h]
    unfold _dhcp_response_handler
    rw [hrem]
    simpa using h

/-- `List.find?` returns the first satisfying element: the list splits
around the result, every earlier element failing the test. -/
theorem find?_eq_some_first {α : Type} (p : α → Bool) (l : List α) (a : α)
    (h : l.find? p = some a) :
    ∃ pre post, l = pre ++ a :: post ∧ p a = true ∧
      ∀ x ∈ pre, p x = false := by
  induction l with
  | nil => simp [List.find?] at h
  | cons b bs ih =>
    cases hb : p b
    · have h2 : bs.find? p = some a := by
        rwa [List.find?_cons_of_neg _ (by simp [hb])] at h
      obtain ⟨pre, post, heq, hpa, hpre⟩ := ih h2
      refine ⟨b :: pre, post, by rw [heq]; rfl, hpa, ?_⟩
      intro x hx
      rcases List.mem_cons.mp hx with hx | hx
      · rw [hx, hb]
      · exact hpre x hx
    · rw [List.find?_cons_of_pos _ hb] at h
      have hba : b = a := by injection h
      subst hba
      exact ⟨[], bs, rfl, hb, by intro x hx; cases hx⟩

/-- C10: `findDomainPath` returns the domain path of the first scanned
entry whose UUID matches `sdUUID` and whose parent directory is mounted;
it raises `StorageDomainDoesNotExist(sdUUID)` exactly when no scanned
entry satisfies both conditions; and it always either returns a path or
raises — never a missing value. -/
theorem findDomainPath_spec (scan : List (String × String))
    (isMounted : String → Bool) (u : String) :
    (∀ p, findDomainPath scan isMounted u = Except.ok p →
      ∃ pre e post, scan = pre ++ e :: post ∧
        domainMatches isMounted u e = true ∧
        (∀ x ∈ pre, domainMatches isMounted u x = false) ∧ p = e.2) ∧
    (findDomainPath scan isMounted u = Except.error ⟨u⟩ ↔
      ∀ e ∈ scan, domainMatches isMounted u e = false) ∧
    ((∃ p, findDomainPath scan isMounted u = Except.ok p) ∨
      findDomainPath scan isMounted u = Except.error ⟨u⟩) := by
  refine ⟨?_, ?_, ?_⟩
  · intro p hp
    unfold findDomainPath at hp
    cases hf : scan.find? (domainMatches isMounted u) with
    | none => rw [hf] at hp; cases hp
    | some e =>
      rw [hf] at hp
      obtain ⟨pre, post, heq, hpe, hpre⟩ := find?_eq_some_first _ _ _ hf
      have hpv : p = e.2 := by injection hp with hx; exact hx.symm
      exact ⟨pre, e, post, heq, hpe, hpre, hpv⟩
  · unfold findDomainPath
    cases hf : scan.find? (domainMatches isMounted u) with
    | none =>
      simp only [true_iff]
      have hall := List.find?_eq_none.mp hf
      exact fun e he => by
        cases hq : domainMatches isMounted u e
        · rfl
        · exact absurd hq (hall e he)
    | some e =>
      constructor
      · intro hcon; cases hcon
      · intro hall
        have hpe := List.find?_some hf
        have hme := List.mem_of_find?_eq_some hf
        rw [hall e hme] at hpe
        cases hpe
  · unfold findDomainPath
    cases scan.find? (domainMatches isMounted u) with
    | none => exact Or.inr rfl
    | some e => exact Or.inl ⟨e.2, rfl⟩

/-- C10 witness: a concrete scan whose second entry is the first match. -/
theorem findDomainPath_spec_witness :
    findDomainPath [("u0", "pa"), ("u1", "pb"), ("u1", "pc")]
      (fun _ => true) "u1" = Except.ok "pb" ∧
    ∃ pre e post,
      ([("u0", "pa"), ("u1", "pb"), ("u1", "pc")] : List (String × String))
        = pre ++ e :: post ∧
      domainMatches (fun _ => true) "u1" e = true ∧
      (∀ x ∈ pre, domainMatches (fun _ => true) "u1" x = false) ∧
      "pb" = e.2 :=
  ⟨rfl,
   (findDomainPath_spec [("u0", "pa"), ("u1", "pb"), ("u1", "pc")]
     (fun _ => true) "u1").1 "pb" rfl⟩

/-- C6 witness: a failing resolver at a concrete IP/hostname pair. -/
theorem lookup_failure_fails_witness :
    isLoopback (normalize_ip_address "10.0.0.1") = false ∧
    normalize_ip_address "10.0.0.1" ≠ normalize_ip_address "example.com" ∧
    noRecords (normalize_ip_address "10.0.0.1") = none ∧
    noRecords (normalize_ip_address "example.com") = none ∧
    compare_names noRecords "10.0.0.1" "example.com" = false :=
  ⟨by decide, by decide, rfl, rfl,
   lookup_failure_fails noRecords "10.0.0.1" "example.com"
     (by decide) (by decide) rfl rfl⟩

end Vdsm
